import Mathlib

/-!
Verification of `rl/hyperoptimizer.py` (hyperparameter search coordination).

A shallow embedding of the module: Python dictionaries become association
lists over `String`, Python values become the inductive `PyVal` (numbers as
rationals), exceptions become an explicit `PyError` sum threaded through
`Except`, and the two heap-allocated top-level dictionaries that matter for
aliasing (the caller's experiment spec and the optimizer's stored common
spec) live in an explicit `Heap` of dictionary cells.  External collaborators
(the `hyperopt` library, the `Trial` class, and the grid helpers from
`rl.util`) are kept abstract: `hyperopt` parameter expressions are modelled
symbolically by `HpExpr`, `Trial` by an opaque function from constructor
arguments to a result value, and the grid helpers by function parameters.
-/

set_option autoImplicit false

namespace OpenAILab

/-- Python values, deeply (numbers are modelled as rationals). -/
inductive PyVal where
  | none : PyVal
  | bool (b : Bool) : PyVal
  | num (q : ℚ) : PyVal
  | str (s : String) : PyVal
  | list (l : List PyVal) : PyVal
  | dict (d : List (String × PyVal)) : PyVal

/-- A Python dictionary with string keys: an association list (keys are
unique in any dict produced by Python; lookup takes the first match). -/
abbrev PyDict := List (String × PyVal)

/-- Exceptions that the embedded code can raise. -/
inductive PyError where
  | assertionError : PyError
  | keyError (k : String) : PyError
  | attributeError (a : String) : PyError
  | typeError (msg : String) : PyError
  | indexError : PyError
  | zeroDivisionError : PyError
  deriving DecidableEq

/-- `d[k]` as an option: first binding of `k`. -/
def dictLookup {α : Type} : List (String × α) → String → Option α
  | [], _ => Option.none
  | p :: ps, k => if p.1 = k then some p.2 else dictLookup ps k

/-- Python's `k in d`. -/
def dictContains {α : Type} (d : List (String × α)) (k : String) : Bool :=
  (dictLookup d k).isSome

/-- Python's `d[k] = v`: replace the binding of `k` if present, else append. -/
def dictSet {α : Type} : List (String × α) → String → α → List (String × α)
  | [], k, v => [(k, v)]
  | p :: ps, k, v => if p.1 = k then (k, v) :: ps else p :: dictSet ps k v

/-- Python's `d.pop(k)` (the removal part; presence is asserted before use). -/
def dictPop {α : Type} : List (String × α) → String → List (String × α)
  | [], _ => []
  | p :: ps, k => if p.1 = k then ps else p :: dictPop ps k

/-- Python's `list(d.keys())`. -/
def dictKeys {α : Type} (d : List (String × α)) : List String :=
  d.map Prod.fst

/-- Symbolic `hyperopt` parameter expressions, the abstract results of the
`hp.*` constructors used in `convert_to_hp`. -/
inductive HpExpr where
  | choice (label : String) (options : List PyVal) : HpExpr
  | call (ctor : String) (label : String) (kwargs : PyDict) : HpExpr

/-- A value of the param space built by `generate_param_space`: either a
plain default value or a `hyperopt` expression substituted for it. -/
inductive SpaceVal where
  | val (v : PyVal) : SpaceVal
  | hp (e : HpExpr) : SpaceVal

/-- The param space dictionary (default values with searched keys replaced
by `hyperopt` expressions). -/
abbrev SpaceDict := List (String × SpaceVal)

namespace HyperoptHyperOptimizer

/-- `HyperoptHyperOptimizer.convert_to_hp` (hyperoptimizer.py lines 55-83).

A list becomes `hp.choice(k, v)`.  A dict must have exactly one key
`space_k` (asserted); its value `space_v` is then splatted as keyword
arguments into `getattr(hp, space_k)(k, **space_v)` — Python's `**`
requires `space_v` to be a mapping and raises `TypeError` otherwise.
The `hp` constructor itself is modelled symbolically by `HpExpr.call`.
Any other value hits the explicit `raise TypeError` branch. -/
def convert_to_hp (k : String) (v : PyVal) : Except PyError HpExpr :=
  match v with
  | PyVal.list l => Except.ok (HpExpr.choice k l)
  | PyVal.dict d =>
      let space_keys := dictKeys d
      if space_keys.length = 1 then
        let space_k := space_keys.headD ""
        match (dictLookup d space_k).getD PyVal.none with
        | PyVal.dict sv => Except.ok (HpExpr.call space_k k sv)
        | _ => Except.error (PyError.typeError "argument after ** must be a mapping")
      else Except.error PyError.assertionError
  | _ =>
      Except.error
        (PyError.typeError "experiment_spec param_range value must be a list or dict")

end HyperoptHyperOptimizer

/-- Python truthiness of a value. -/
def pyTruthy : PyVal → Bool
  | PyVal.none => false
  | PyVal.bool b => b
  | PyVal.num q => decide (q ≠ 0)
  | PyVal.str s => decide (s ≠ "")
  | PyVal.list l => !l.isEmpty
  | PyVal.dict d => !d.isEmpty

/-- A heap of top-level dictionary objects: an address is an index into
`cells`, allocation appends a fresh cell.  Only the two dictionaries whose
identity matters to the claims (the caller's experiment spec and the
optimizer's stored common spec) need to live here. -/
structure Heap where
  cells : List PyDict

/-- Dereference an address. -/
def Heap.get (h : Heap) (a : Nat) : PyDict := h.cells.getD a []

/-- Overwrite the cell at an (allocated) address. -/
def Heap.set (h : Heap) (a : Nat) (d : PyDict) : Heap := ⟨h.cells.set a d⟩

/-- Allocate a fresh cell; returns the new heap and the fresh address. -/
def Heap.alloc (h : Heap) (d : PyDict) : Heap × Nat :=
  (⟨h.cells ++ [d]⟩, h.cells.length)

/-- The argument tuple with which the opaque `Trial` collaborator is
constructed (its fixed call contract); `experiment_id_override` is only
passed by the brute-force optimizer. -/
structure TrialArgs where
  experiment_spec : PyVal
  times : PyVal
  trial_num : Nat
  num_of_trials : PyVal
  run_timestamp : String
  experiment_id_override : Option PyVal

/-- Python subscription `v[k]` on a (possible) dictionary. -/
def pySubscript (v : PyVal) (k : String) : Except PyError PyVal :=
  match v with
  | PyVal.dict d =>
      match dictLookup d k with
      | some x => Except.ok x
      | Option.none => Except.error (PyError.keyError k)
  | _ => Except.error (PyError.typeError "object is not subscriptable")

/-- Python subscription `v[i]` on a (possible) list. -/
def pyIndex (v : PyVal) (i : Nat) : Except PyError PyVal :=
  match v with
  | PyVal.list l =>
      match l.get? i with
      | some x => Except.ok x
      | Option.none => Except.error PyError.indexError
  | _ => Except.error (PyError.typeError "object is not subscriptable")

/-- A value used in arithmetic must be a number. -/
def pyAsNum (v : PyVal) : Except PyError ℚ :=
  match v with
  | PyVal.num q => Except.ok q
  | _ => Except.error (PyError.typeError "unsupported operand type")

/-- Python division (raises on a zero divisor). -/
def pyDiv (a b : ℚ) : Except PyError ℚ :=
  if b = 0 then Except.error PyError.zeroDivisionError else Except.ok (a / b)

/-- `hyperopt.STATUS_OK`, the string constant `'ok'`. -/
def STATUS_OK : PyVal := PyVal.str "ok"

namespace HyperOptimizer

/-- `HyperOptimizer.check_set_keys` (hyperoptimizer.py lines 22-25): assert
that every key of `self.REQUIRED_GLOBAL_VARS` is in `kwargs`, then
`setattr` each kwarg on the instance (modelled by returning the kwargs as
the instance's attribute dictionary). -/
def check_set_keys (REQUIRED_GLOBAL_VARS : List String) (kwargs : PyDict) :
    Except PyError PyDict :=
  if REQUIRED_GLOBAL_VARS.all (fun k => dictContains kwargs k) then Except.ok kwargs
  else Except.error PyError.assertionError

end HyperOptimizer

namespace HyperoptHyperOptimizer

/-- The instance variables of a `HyperoptHyperOptimizer` that the claims
touch; `common_experiment_spec` is an address into the heap (the stored
spec is a mutable dictionary object). -/
structure Vars where
  common_experiment_spec : Nat
  default_param : PyVal
  param_range : PyVal
  trial_num : Nat
  times : PyVal
  max_evals : PyVal
  run_timestamp : String

/-- `HyperoptHyperOptimizer.check_set_keys` (lines 36-53), with the caller's
`experiment_spec` dictionary living in the heap.  `kwargs_spec` is the
`'experiment_spec'` entry of the keyword arguments (a reference into the
heap, or `none` when the key was not passed) and `kwargs_rest` are the
remaining keyword arguments.  `kwargs.pop('experiment_spec')` raises
`KeyError` when the key is absent and otherwise removes it from `kwargs`,
so the `super()` call receives `kwargs_rest` only, while the freshly set
`self.REQUIRED_GLOBAL_VARS` still lists `'experiment_spec'`.  The spec is
deep-copied before `'param'` and `'param_range'` are popped, and the pops
hit the copy.  The heap is returned in every outcome (mutations survive a
raised exception).  `run_timestamp` is set by `__init__` and is carried
here only to fill the corresponding field. -/
def check_set_keys (h : Heap) (kwargs_spec : Option Nat) (kwargs_rest : PyDict)
    (run_timestamp : String) : Heap × Except PyError Vars :=
  match kwargs_spec with
  | Option.none => (h, Except.error (PyError.keyError "experiment_spec"))
  | some raw_addr =>
      let raw := h.get raw_addr
      if dictContains raw "param" then
        if dictContains raw "param_range" then
          let alloc := h.alloc raw
          let h1 := alloc.1
          let ca := alloc.2
          let h2 := h1.set ca (dictPop (h1.get ca) "param")
          let h3 := h2.set ca (dictPop (h2.get ca) "param_range")
          if ["experiment_spec", "times", "max_evals"].all
              (fun k => dictContains kwargs_rest k) then
            (h3, Except.ok
              { common_experiment_spec := ca
                default_param := (dictLookup raw "param").getD PyVal.none
                param_range := (dictLookup raw "param_range").getD PyVal.none
                trial_num := 0
                times := (dictLookup kwargs_rest "times").getD PyVal.none
                max_evals := (dictLookup kwargs_rest "max_evals").getD PyVal.none
                run_timestamp := run_timestamp })
          else (h3, Except.error PyError.assertionError)
        else (h, Except.error PyError.assertionError)
      else (h, Except.error PyError.assertionError)

/-- The `for k in self.param_range` loop of `generate_param_space` (lines
88-91), over the list of keys still to process. -/
def set_param_spaces (param_range : PyDict) :
    List String → SpaceDict → Except PyError SpaceDict
  | [], param_space => Except.ok param_space
  | k :: ks, param_space =>
      match convert_to_hp k ((dictLookup param_range k).getD PyVal.none) with
      | Except.error e => Except.error e
      | Except.ok space =>
          set_param_spaces param_range ks (dictSet param_space k (SpaceVal.hp space))

/-- `HyperoptHyperOptimizer.generate_param_space` (lines 86-92): start from
a copy of the default `param` dict, then replace each key of `param_range`
by its converted `hyperopt` expression. -/
def generate_param_space (default_param : PyDict) (param_range : PyDict) :
    Except PyError SpaceDict :=
  set_param_spaces param_range (dictKeys param_range)
    (default_param.map (fun p => (p.1, SpaceVal.val p.2)))

/-- `increment_var` (lines 94-95). -/
def increment_var (s : Vars) : Vars := { s with trial_num := s.trial_num + 1 }

/-- `get_next_var` (lines 97-99): increment, then expose the instance
state. -/
def get_next_var (s : Vars) : Vars := increment_var s

/-- Lines 104-113 of `hyperopt_run_trial`: fetch the incremented state,
update the stored common spec in place with the sampled `param`, and build
the `Trial` constructor arguments from it. -/
def trial_call (h : Heap) (s : Vars) (param : PyVal) : Heap × Vars × TrialArgs :=
  let gv := get_next_var s
  let updated := dictSet (h.get gv.common_experiment_spec) "param" param
  let h' := h.set gv.common_experiment_spec updated
  (h', gv,
    { experiment_spec := PyVal.dict updated
      times := gv.times
      trial_num := gv.trial_num
      num_of_trials := gv.max_evals
      run_timestamp := gv.run_timestamp
      experiment_id_override := Option.none })

/-- `HyperoptHyperOptimizer.hyperopt_run_trial` (lines 101-122).
`Trial_run` is the opaque composite `self.Trial(...).run()`. -/
def hyperopt_run_trial (Trial_run : TrialArgs → PyVal) (h : Heap) (s : Vars)
    (param : PyVal) : Heap × Vars × Except PyError PyDict :=
  let tc := trial_call h s param
  let trial_data := Trial_run tc.2.2
  (tc.1, tc.2.1,
    do
      let summary ← pySubscript trial_data "summary"
      let metrics ← pySubscript summary "metrics"
      let stats ← pySubscript metrics "mean_rewards_per_epi_stats"
      let mean_v ← pySubscript stats "mean"
      let sys_vars_array ← pySubscript trial_data "sys_vars_array"
      let sv0 ← pyIndex sys_vars_array 0
      let smr_v ← pySubscript sv0 "SOLVED_MEAN_REWARD"
      let mean ← pyAsNum mean_v
      let smr ← pyAsNum smr_v
      let hyperopt_loss ← pyDiv (-1 * mean) smr
      Except.ok [("loss", PyVal.num hyperopt_loss), ("status", STATUS_OK),
                 ("trial_data", trial_data)])

/-- Successive calls of `hyperopt_run_trial` on one optimizer (as driven by
`fmin`), recording the `Trial` constructor arguments of each call. -/
def run_trials : Heap → Vars → List PyVal → Heap × Vars × List TrialArgs
  | h, s, [] => (h, s, [])
  | h, s, p :: ps =>
      let tc := trial_call h s p
      let rest := run_trials tc.1 tc.2.1 ps
      (rest.1, rest.2.1, tc.2.2 :: rest.2.2)

end HyperoptHyperOptimizer

/-- `mp.Pool.map`: the trials are handed to a fixed-size pool of workers
and may finish in any order (`completion`, a permutation of the input
indices), but the pool reassembles the results by input index before
returning them. -/
def pool_map {α β : Type} (completion : List Nat) (f : α → β) (xs : List α) :
    List β :=
  let results := completion.filterMap (fun i => (xs[i]?).map (fun x => (i, f x)))
  (List.range xs.length).filterMap
    (fun j => (results.find? (fun r => r.1 == j)).map Prod.snd)

namespace BruteHyperOptimizer

/-- `BruteHyperOptimizer.check_set_keys` (lines 138-144): set the three
required keys, then delegate to the base implementation. -/
def check_set_keys (kwargs : PyDict) : Except PyError PyDict :=
  HyperOptimizer.check_set_keys ["experiment_spec", "times", "line_search"] kwargs

/-- The `for e in range(self.num_of_trials)` loop of `generate_param_space`
(lines 156-164), over the list of indices still to process.  The attribute
reads `self.times` and `self.experiment_id_override` happen inside the loop
body, in the order the `Trial` constructor arguments are written, so a
missing attribute raises `AttributeError` on the first iteration and an
empty loop never reads them. -/
def trial_loop (attrs : PyDict) (param_space : List PyVal) (num_of_trials : Nat)
    (run_timestamp : String) :
    List Nat → List TrialArgs → Except PyError (List TrialArgs)
  | [], trial_array => Except.ok trial_array
  | e :: es, trial_array =>
      match dictLookup attrs "times" with
      | Option.none => Except.error (PyError.attributeError "times")
      | some times =>
          match dictLookup attrs "experiment_id_override" with
          | Option.none =>
              Except.error (PyError.attributeError "experiment_id_override")
          | some eio =>
              trial_loop attrs param_space num_of_trials run_timestamp es
                (trial_array ++
                  [{ experiment_spec := param_space.getD e PyVal.none
                     times := times
                     trial_num := e
                     num_of_trials := PyVal.num (num_of_trials : ℚ)
                     run_timestamp := run_timestamp
                     experiment_id_override := some eio }])

/-- `BruteHyperOptimizer.generate_param_space` (lines 147-166).
`param_line_search`, `param_product` and `generate_experiment_spec_grid`
come from `rl.util` (outside this module) and are kept abstract as function
parameters; the claims hold for every behaviour of these helpers. -/
def generate_param_space
    (param_line_search param_product : PyVal → PyVal)
    (generate_experiment_spec_grid : PyVal → PyVal → List PyVal)
    (attrs : PyDict) (run_timestamp : String) :
    Except PyError (List PyVal × List TrialArgs) :=
  match dictLookup attrs "line_search" with
  | Option.none => Except.error (PyError.attributeError "line_search")
  | some line_search =>
      match dictLookup attrs "experiment_spec" with
      | Option.none => Except.error (PyError.attributeError "experiment_spec")
      | some experiment_spec =>
          let param_grid :=
            if pyTruthy line_search then param_line_search experiment_spec
            else param_product experiment_spec
          let param_space := generate_experiment_spec_grid experiment_spec param_grid
          let num_of_trials := param_space.length
          match trial_loop attrs param_space num_of_trials run_timestamp
              (List.range num_of_trials) [] with
          | Except.error e => Except.error e
          | Except.ok trial_array => Except.ok (param_space, trial_array)

/-- `BruteHyperOptimizer.mp_run_helper` (lines 168-169). -/
def mp_run_helper (Trial_run : TrialArgs → PyVal) (trial : TrialArgs) : PyVal :=
  Trial_run trial

/-- `BruteHyperOptimizer.run` (lines 171-177): map the trials over the
worker-process pool (`PARALLEL_PROCESS_NUM` workers; the pool size does not
influence the collected results) and collect the results. -/
def run (completion : List Nat) (Trial_run : TrialArgs → PyVal)
    (trial_array : List TrialArgs) : List PyVal :=
  pool_map completion (mp_run_helper Trial_run) trial_array

/-- `HyperOptimizer.__init__` specialised to `BruteHyperOptimizer` (lines
12-20): validate and set the keys, then generate the param space (the
timestamp and the `Trial` class binding in between carry no logic). -/
def init (param_line_search param_product : PyVal → PyVal)
    (generate_experiment_spec_grid : PyVal → PyVal → List PyVal)
    (kwargs : PyDict) (run_timestamp : String) :
    Except PyError (List PyVal × List TrialArgs) :=
  match check_set_keys kwargs with
  | Except.error e => Except.error e
  | Except.ok attrs =>
      generate_param_space param_line_search param_product
        generate_experiment_spec_grid attrs run_timestamp

end BruteHyperOptimizer

/-- Statement-side classifier: does a result of `convert_to_hp` carry a
`TypeError`? -/
def isTypeErrorRes (r : Except PyError HpExpr) : Bool :=
  match r with
  | Except.error (PyError.typeError _) => true
  | _ => false

/-- Statement-side classifier over value shapes, following the amended
error-handling claim: `convert_to_hp` raises `TypeError` exactly on a value
that is neither a list nor a dict (the explicit `raise`), or on a
single-entry dict whose value is not itself a dict (the `**` keyword
unpacking). -/
def raisesTypeError : PyVal → Bool
  | PyVal.list _ => false
  | PyVal.dict [(_, PyVal.dict _)] => false
  | PyVal.dict [(_, _)] => true
  | PyVal.dict _ => false
  | _ => true

/-! ### Library lemmas about the dictionary, heap and pool models -/

theorem dictLookup_dictSet {α : Type} (d : List (String × α)) (k k' : String) (v : α) :
    dictLookup (dictSet d k v) k' = if k = k' then some v else dictLookup d k' := by
  induction d with
  | nil =>
      by_cases h : k = k' <;> simp [dictSet, dictLookup, h]
  | cons p ps ih =>
      by_cases hp : p.1 = k
      · subst hp
        by_cases h : p.1 = k' <;> simp [dictSet, dictLookup, h]
      · by_cases h : k = k'
        · subst h
          simp [dictSet, dictLookup, hp, ih]
        · simp [dictSet, dictLookup, hp, ih, h]

theorem dictContains_iff_lookup {α : Type} (d : List (String × α)) (k : String) :
    dictContains d k = true ↔ ∃ v, dictLookup d k = some v := by
  simp [dictContains, Option.isSome_iff_exists]

theorem dictContains_false_lookup {α : Type} (d : List (String × α)) (k : String)
    (h : dictContains d k = false) : dictLookup d k = Option.none := by
  cases hl : dictLookup d k with
  | none => rfl
  | some v => simp [dictContains, hl] at h

theorem dictContains_iff_mem_keys {α : Type} (d : List (String × α)) (k : String) :
    dictContains d k = true ↔ k ∈ dictKeys d := by
  induction d with
  | nil => simp [dictContains, dictLookup, dictKeys]
  | cons p ps ih =>
      by_cases hp : p.1 = k
      · simp [dictContains, dictLookup, dictKeys, hp]
      · simpa [dictContains, dictLookup, dictKeys, hp, Ne.symm hp] using ih

theorem dictLookup_map_val {α β : Type} (f : α → β) (d : List (String × α)) (k : String) :
    dictLookup (d.map (fun p => (p.1, f p.2))) k = (dictLookup d k).map f := by
  induction d with
  | nil => simp [dictLookup]
  | cons p ps ih => by_cases hp : p.1 = k <;> simp [dictLookup, hp, ih]

theorem Heap.get_set_self (h : Heap) (a : Nat) (d : PyDict)
    (ha : a < h.cells.length) : (h.set a d).get a = d := by
  simp [Heap.get, Heap.set, List.getD, List.getElem?_set_self', List.getElem?_eq_getElem, ha]

theorem Heap.get_set_ne (h : Heap) (a b : Nat) (d : PyDict) (hab : a ≠ b) :
    (h.set a d).get b = h.get b := by
  simp [Heap.get, Heap.set, List.getD, List.getElem?_set_ne hab]

theorem Heap.get_alloc_of_lt (h : Heap) (a : Nat) (d : PyDict)
    (ha : a < h.cells.length) : ((h.alloc d).1).get a = h.get a := by
  simp only [Heap.get, Heap.alloc]
  exact List.getD_append _ _ _ _ ha

theorem Heap.alloc_addr_lt (h : Heap) (a : Nat) (d : PyDict)
    (ha : a < h.cells.length) : a ≠ (h.alloc d).2 := by
  simp only [Heap.alloc]
  omega

theorem Heap.get_mk_append_of_lt (l : List PyDict) (a : Nat) (d : PyDict)
    (ha : a < l.length) : (Heap.mk (l ++ [d])).get a = (Heap.mk l).get a := by
  simp only [Heap.get]
  exact List.getD_append _ _ _ _ ha

theorem Heap.get_mk_append_self (l : List PyDict) (d : PyDict) :
    (Heap.mk (l ++ [d])).get l.length = d := by
  simp only [Heap.get, List.getD]
  rw [List.get?_eq_getElem?, List.getElem?_append_right (le_refl _)]
  simp

theorem list_filterMap_eq_map_of {γ δ : Type} (L : List γ) (F : γ → Option δ)
    (G : γ → δ) (hFG : ∀ x ∈ L, F x = some (G x)) : L.filterMap F = L.map G := by
  induction L with
  | nil => simp
  | cons x xs ih =>
      rw [List.filterMap_cons, hFG x (List.mem_cons_self x xs), List.map_cons,
        ih (fun y hy => hFG y (List.mem_cons_of_mem x hy))]

theorem pool_map_perm {α β : Type} (completion : List Nat) (f : α → β) (xs : List α)
    (hperm : completion.Perm (List.range xs.length)) :
    pool_map completion f xs = xs.map f := by
  cases xs with
  | nil => simp [pool_map]
  | cons a tl =>
      set xs := a :: tl with hxs
      have hkey : ∀ j, j < xs.length →
          ((completion.filterMap (fun i => (xs[i]?).map (fun x => (i, f x)))).find?
            (fun r => r.1 == j)) = some (j, f (xs.getD j a)) := by
        intro j hj
        have hmemc : j ∈ completion := by
          rw [hperm.mem_iff, List.mem_range]
          exact hj
        have hjget : xs[j]? = some (xs.getD j a) := by
          rw [List.getElem?_eq_getElem hj, List.getD_eq_getElem xs a hj]
        have hmem_res : (j, f (xs.getD j a)) ∈
            completion.filterMap (fun i => (xs[i]?).map (fun x => (i, f x))) := by
          refine List.mem_filterMap.mpr ⟨j, hmemc, ?_⟩
          rw [hjget]
          rfl
        have hsome : ((completion.filterMap
            (fun i => (xs[i]?).map (fun x => (i, f x)))).find?
              (fun r => r.1 == j)).isSome :=
          List.find?_isSome.mpr ⟨_, hmem_res, by simp⟩
        obtain ⟨r, hr⟩ := Option.isSome_iff_exists.mp hsome
        have hpr := List.find?_some hr
        have hrmem := List.mem_of_find?_eq_some hr
        obtain ⟨i, hic, hieq⟩ := List.mem_filterMap.mp hrmem
        obtain ⟨x, hxi, hxr⟩ := Option.map_eq_some'.mp hieq
        have hij : i = j := by
          rw [← hxr] at hpr
          simpa using hpr
        subst hij
        rw [hjget] at hxi
        have hx : x = xs.getD i a := (Option.some.inj hxi).symm
        rw [hr, ← hxr, hx]
      have hmid : pool_map completion f xs
          = (List.range xs.length).map (fun j => f (xs.getD j a)) := by
        unfold pool_map
        apply list_filterMap_eq_map_of
        intro j hjmem
        rw [hkey j (List.mem_range.mp hjmem)]
        rfl
      rw [hmid]
      apply List.ext_getElem
      · simp
      intro i h1 h2
      simp only [List.getElem_map, List.getElem_range]
      rw [List.getD_eq_getElem xs a (by simpa using h2)]

/-! ### Behaviour lemmas for the embedded methods -/

theorem trial_loop_ok (attrs : PyDict) (param_space : List PyVal) (n : Nat)
    (rts : String) (tv ev : PyVal)
    (htv : dictLookup attrs "times" = some tv)
    (hev : dictLookup attrs "experiment_id_override" = some ev) :
    ∀ (es : List Nat) (acc : List TrialArgs),
      BruteHyperOptimizer.trial_loop attrs param_space n rts es acc =
        Except.ok (acc ++ es.map (fun e =>
          { experiment_spec := param_space.getD e PyVal.none
            times := tv
            trial_num := e
            num_of_trials := PyVal.num (n : ℚ)
            run_timestamp := rts
            experiment_id_override := some ev })) := by
  intro es
  induction es with
  | nil =>
      intro acc
      simp [BruteHyperOptimizer.trial_loop]
  | cons e es ih =>
      intro acc
      simp [BruteHyperOptimizer.trial_loop, htv, hev, ih]

theorem trial_loop_err_eio (attrs : PyDict) (param_space : List PyVal) (n : Nat)
    (rts : String) (tv : PyVal)
    (htv : dictLookup attrs "times" = some tv)
    (hev : dictLookup attrs "experiment_id_override" = Option.none)
    (e : Nat) (es : List Nat) (acc : List TrialArgs) :
    BruteHyperOptimizer.trial_loop attrs param_space n rts (e :: es) acc =
      Except.error (PyError.attributeError "experiment_id_override") := by
  simp [BruteHyperOptimizer.trial_loop, htv, hev]

theorem brute_generate_eq
    (param_line_search param_product : PyVal → PyVal)
    (generate_experiment_spec_grid : PyVal → PyVal → List PyVal)
    (attrs : PyDict) (rts : String) (ls es tv ev : PyVal)
    (hls : dictLookup attrs "line_search" = some ls)
    (hes : dictLookup attrs "experiment_spec" = some es)
    (htv : dictLookup attrs "times" = some tv)
    (hev : dictLookup attrs "experiment_id_override" = some ev) :
    BruteHyperOptimizer.generate_param_space param_line_search param_product
        generate_experiment_spec_grid attrs rts =
      Except.ok
        (generate_experiment_spec_grid es
            (if pyTruthy ls then param_line_search es else param_product es),
          (List.range (generate_experiment_spec_grid es
            (if pyTruthy ls then param_line_search es else param_product es)).length).map
            (fun e =>
              { experiment_spec :=
                  (generate_experiment_spec_grid es
                    (if pyTruthy ls then param_line_search es
                     else param_product es)).getD e PyVal.none
                times := tv
                trial_num := e
                num_of_trials := PyVal.num
                  ((generate_experiment_spec_grid es
                    (if pyTruthy ls then param_line_search es
                     else param_product es)).length : ℚ)
                run_timestamp := rts
                experiment_id_override := some ev })) := by
  simp only [BruteHyperOptimizer.generate_param_space, hls, hes]
  rw [trial_loop_ok attrs _ _ rts tv ev htv hev]
  simp

theorem run_trials_length (ps : List PyVal) :
    ∀ (h : Heap) (s : HyperoptHyperOptimizer.Vars),
      (HyperoptHyperOptimizer.run_trials h s ps).2.2.length = ps.length := by
  induction ps with
  | nil => intro h s; rfl
  | cons p ps ih =>
      intro h s
      simp [HyperoptHyperOptimizer.run_trials, ih]

theorem run_trials_trial_nums (ps : List PyVal) :
    ∀ (h : Heap) (s : HyperoptHyperOptimizer.Vars),
      (HyperoptHyperOptimizer.run_trials h s ps).2.2.map TrialArgs.trial_num
        = (List.range ps.length).map (fun i => s.trial_num + i + 1) := by
  induction ps with
  | nil => intro h s; rfl
  | cons p ps ih =>
      intro h s
      have hfun : (fun i => s.trial_num + 1 + i + 1)
          = ((fun i => s.trial_num + i + 1) ∘ Nat.succ) := by
        funext i
        simp [Function.comp]
        omega
      simp only [HyperoptHyperOptimizer.run_trials, List.map_cons, List.length_cons,
        List.range_succ_eq_map, List.map_map]
      rw [ih]
      have hstep : (HyperoptHyperOptimizer.trial_call h s p).2.1.trial_num
          = s.trial_num + 1 := rfl
      rw [hstep, hfun]
      simp [HyperoptHyperOptimizer.trial_call, HyperoptHyperOptimizer.get_next_var,
        HyperoptHyperOptimizer.increment_var]

theorem run_trials_common (ps : List PyVal) :
    ∀ (h : Heap) (s : HyperoptHyperOptimizer.Vars),
      (HyperoptHyperOptimizer.run_trials h s ps).2.1.common_experiment_spec =
        s.common_experiment_spec := by
  induction ps with
  | nil => intro h s; rfl
  | cons p ps ih =>
      intro h s
      simp [HyperoptHyperOptimizer.run_trials, ih, HyperoptHyperOptimizer.trial_call,
        HyperoptHyperOptimizer.get_next_var, HyperoptHyperOptimizer.increment_var]

theorem set_param_spaces_spec (param_range : PyDict) :
    ∀ (L : List String) (ps out : SpaceDict),
      HyperoptHyperOptimizer.set_param_spaces param_range L ps = Except.ok out →
      (∀ k, k ∉ L → dictLookup out k = dictLookup ps k) ∧
      (∀ k, k ∈ L →
        ∃ e, HyperoptHyperOptimizer.convert_to_hp k
              ((dictLookup param_range k).getD PyVal.none) = Except.ok e ∧
            dictLookup out k = some (SpaceVal.hp e)) := by
  intro L
  induction L with
  | nil =>
      intro ps out hok
      simp only [HyperoptHyperOptimizer.set_param_spaces] at hok
      cases hok
      exact ⟨fun k _ => rfl, fun k hk => absurd hk (List.not_mem_nil k)⟩
  | cons k0 L ih =>
      intro ps out hok
      simp only [HyperoptHyperOptimizer.set_param_spaces] at hok
      cases hcv : HyperoptHyperOptimizer.convert_to_hp k0
          ((dictLookup param_range k0).getD PyVal.none) with
      | error e =>
          rw [hcv] at hok
          exact Except.noConfusion hok
      | ok space =>
          rw [hcv] at hok
          have hok' : HyperoptHyperOptimizer.set_param_spaces param_range L
              (dictSet ps k0 (SpaceVal.hp space)) = Except.ok out := hok
          obtain ⟨hnot, hin⟩ := ih (dictSet ps k0 (SpaceVal.hp space)) out hok'
          constructor
          · intro k hk
            have hk0 : k ≠ k0 := fun hkk => hk (hkk ▸ List.mem_cons_self k0 L)
            have hkL : k ∉ L := fun hkk => hk (List.mem_cons_of_mem k0 hkk)
            rw [hnot k hkL, dictLookup_dictSet]
            rw [if_neg (fun hkk : k0 = k => hk0 hkk.symm)]
          · intro k hk
            rcases List.mem_cons.mp hk with hk | hk
            · subst hk
              by_cases hkL : k ∈ L
              · exact hin k hkL
              · refine ⟨space, hcv, ?_⟩
                rw [hnot k hkL, dictLookup_dictSet]
                simp
            · exact hin k hk

/-! ### Claim theorems -/

/-- C2, counterexample: the claim says a missing required configuration key
always raises `AssertionError`, but constructing a `HyperoptHyperOptimizer`
with kwargs lacking `'experiment_spec'` (here `times` and `max_evals` are
supplied) hits `kwargs.pop('experiment_spec')` first and raises `KeyError`,
which is not `AssertionError`. -/
theorem C2_counterexample_missing_spec_keyerror :
    (HyperoptHyperOptimizer.check_set_keys ⟨[]⟩ Option.none
        [("times", PyVal.num 1), ("max_evals", PyVal.num 5)] "t").2 =
      Except.error (PyError.keyError "experiment_spec") ∧
    PyError.keyError "experiment_spec" ≠ PyError.assertionError :=
  ⟨rfl, by decide⟩

/-- C2 (amended): missing required configuration keys raise.  For the base
class (`'experiment_spec'`, `'times'`) and for `BruteHyperOptimizer`
(`'experiment_spec'`, `'times'`, `'line_search'`), any kwargs missing a
required key make `check_set_keys` raise `AssertionError`.  For
`HyperoptHyperOptimizer`, kwargs lacking `'experiment_spec'` raise
`KeyError` (from `kwargs.pop`) instead; with `'experiment_spec'` supplied,
`check_set_keys` raises `AssertionError` in every remaining failure case —
a missing `'param'` or `'param_range'` in the spec, a missing `'times'` or
`'max_evals'`, and indeed always, because the `super()` assertion re-checks
`'experiment_spec'` against the kwargs it was popped from. -/
theorem C2_amended_missing_key_raises :
    (∀ kwargs : PyDict,
        ¬ (["experiment_spec", "times"].all (fun k => dictContains kwargs k) = true) →
        HyperOptimizer.check_set_keys ["experiment_spec", "times"] kwargs =
          Except.error PyError.assertionError) ∧
    (∀ kwargs : PyDict,
        ¬ (["experiment_spec", "times", "line_search"].all
            (fun k => dictContains kwargs k) = true) →
        BruteHyperOptimizer.check_set_keys kwargs =
          Except.error PyError.assertionError) ∧
    (∀ (h : Heap) (kr : PyDict) (rts : String),
        (HyperoptHyperOptimizer.check_set_keys h Option.none kr rts).2 =
          Except.error (PyError.keyError "experiment_spec")) ∧
    (∀ (h : Heap) (a : Nat) (kr : PyDict) (rts : String),
        dictContains kr "experiment_spec" = false →
        (HyperoptHyperOptimizer.check_set_keys h (some a) kr rts).2 =
          Except.error PyError.assertionError) := by
  refine ⟨?_, ?_, ?_, ?_⟩
  · intro kwargs hmiss
    simp only [HyperOptimizer.check_set_keys]
    rw [if_neg hmiss]
  · intro kwargs hmiss
    simp only [BruteHyperOptimizer.check_set_keys, HyperOptimizer.check_set_keys]
    rw [if_neg hmiss]
  · intro h kr rts
    rfl
  · intro h a kr rts hno
    by_cases h1 : dictContains (h.get a) "param" = true
    · by_cases h2 : dictContains (h.get a) "param_range" = true
      · simp [HyperoptHyperOptimizer.check_set_keys, h1, h2, hno]
      · simp [HyperoptHyperOptimizer.check_set_keys, h1, h2]
    · simp [HyperoptHyperOptimizer.check_set_keys, h1]

/-- Witness for C2's amended theorem at concrete inputs: empty kwargs for
the base class, kwargs without `'line_search'` for the brute optimizer,
kwargs without `'experiment_spec'` (then with it) for the hyperopt one. -/
theorem C2_amended_missing_key_raises_witness :
    HyperOptimizer.check_set_keys ["experiment_spec", "times"] [] =
      Except.error PyError.assertionError ∧
    BruteHyperOptimizer.check_set_keys
        [("experiment_spec", PyVal.dict []), ("times", PyVal.num 1)] =
      Except.error PyError.assertionError ∧
    (HyperoptHyperOptimizer.check_set_keys ⟨[]⟩ Option.none [] "t").2 =
      Except.error (PyError.keyError "experiment_spec") ∧
    (HyperoptHyperOptimizer.check_set_keys
        ⟨[[("param", PyVal.num 1), ("param_range", PyVal.num 2)]]⟩ (some 0)
        [("times", PyVal.num 1), ("max_evals", PyVal.num 5)] "t").2 =
      Except.error PyError.assertionError :=
  ⟨C2_amended_missing_key_raises.1 [] (by decide),
   C2_amended_missing_key_raises.2.1 _ (by decide),
   C2_amended_missing_key_raises.2.2.1 ⟨[]⟩ [] "t",
   C2_amended_missing_key_raises.2.2.2 _ 0 _ "t" (by decide)⟩

/-- C3, counterexample: the claim says every single-key dict-valued range
returns the applied `hp` constructor expression, but a single-key dict
whose value is not itself a dict (here the string `'x'`) raises `TypeError`
at the `**space_v` keyword unpacking instead of returning an expression. -/
theorem C3_counterexample_nonmapping_space :
    HyperoptHyperOptimizer.convert_to_hp "learning_rate"
        (PyVal.dict [("uniform", PyVal.str "x")])
      = Except.error (PyError.typeError "argument after ** must be a mapping") := rfl

/-- C3 (amended): for every list-valued range `v`, `convert_to_hp k v`
returns the choice expression `hp.choice(k, v)`; for every single-key
dict-valued range whose value `space_v` is itself a dict, it returns the
expression obtained by applying the `hp` constructor named `space_k` to
`(k, **space_v)`. -/
theorem C3_amended_convert_to_hp_shapes (k space_k : String) (l : List PyVal)
    (space_v : PyDict) :
    HyperoptHyperOptimizer.convert_to_hp k (PyVal.list l)
      = Except.ok (HpExpr.choice k l) ∧
    HyperoptHyperOptimizer.convert_to_hp k (PyVal.dict [(space_k, PyVal.dict space_v)])
      = Except.ok (HpExpr.call space_k k space_v) := by
  constructor
  · rfl
  · simp [HyperoptHyperOptimizer.convert_to_hp, dictKeys, dictLookup]

/-- C6, counterexample: the claim says only non-list-non-dict values raise
`TypeError` in `convert_to_hp`, but a dict-shaped value (a single-key dict
whose value is a list) also raises `TypeError`, from the `**` keyword
unpacking at the `hp` constructor call. -/
theorem C6_counterexample_dict_typeerror :
    HyperoptHyperOptimizer.convert_to_hp "lr"
        (PyVal.dict [("uniform", PyVal.list [PyVal.num 0, PyVal.num 1])])
      = Except.error (PyError.typeError "argument after ** must be a mapping") :=
  rfl

/-- C6 (amended): every range value that is neither a list nor a dict makes
`convert_to_hp` raise `TypeError` via the explicit `raise`; in addition a
single-entry dict whose value is not itself a dict raises `TypeError` at
the `**` keyword unpacking; and these are exactly the value shapes on which
`convert_to_hp` raises `TypeError` (`raisesTypeError` spells the shapes
out; multi-key and empty dicts raise `AssertionError`, not `TypeError`). -/
theorem C6_amended_typeerror_characterization :
    (∀ (k : String) (v : PyVal),
        (∀ l, v ≠ PyVal.list l) → (∀ d, v ≠ PyVal.dict d) →
        HyperoptHyperOptimizer.convert_to_hp k v =
          Except.error (PyError.typeError
            "experiment_spec param_range value must be a list or dict")) ∧
    (∀ (k space_k : String) (space_v : PyVal),
        (∀ d, space_v ≠ PyVal.dict d) →
        HyperoptHyperOptimizer.convert_to_hp k (PyVal.dict [(space_k, space_v)]) =
          Except.error (PyError.typeError "argument after ** must be a mapping")) ∧
    (∀ (k : String) (v : PyVal),
        isTypeErrorRes (HyperoptHyperOptimizer.convert_to_hp k v) =
          raisesTypeError v) := by
  refine ⟨?_, ?_, ?_⟩
  · intro k v hl hd
    cases v with
    | list l => exact absurd rfl (hl l)
    | dict d => exact absurd rfl (hd d)
    | none => rfl
    | bool b => rfl
    | num q => rfl
    | str s => rfl
  · intro k space_k space_v hnd
    cases space_v with
    | dict d => exact absurd rfl (hnd d)
    | none =>
        simp [HyperoptHyperOptimizer.convert_to_hp, dictKeys, dictLookup]
    | bool b =>
        simp [HyperoptHyperOptimizer.convert_to_hp, dictKeys, dictLookup]
    | num q =>
        simp [HyperoptHyperOptimizer.convert_to_hp, dictKeys, dictLookup]
    | str s =>
        simp [HyperoptHyperOptimizer.convert_to_hp, dictKeys, dictLookup]
    | list l =>
        simp [HyperoptHyperOptimizer.convert_to_hp, dictKeys, dictLookup]
  · intro k v
    cases v with
    | none => rfl
    | bool b => rfl
    | num q => rfl
    | str s => rfl
    | list l => rfl
    | dict d =>
        cases d with
        | nil => rfl
        | cons p tl =>
            cases tl with
            | nil =>
                obtain ⟨k0, v0⟩ := p
                cases v0 <;>
                  simp [HyperoptHyperOptimizer.convert_to_hp, isTypeErrorRes,
                    raisesTypeError, dictKeys, dictLookup]
            | cons q tl' =>
                simp [HyperoptHyperOptimizer.convert_to_hp, isTypeErrorRes,
                  raisesTypeError, dictKeys, dictLookup]

/-- Witness for C6's amended theorem at concrete inputs: a number raises
the explicit `TypeError`, and a single-key dict holding a string raises
the keyword-unpacking `TypeError`. -/
theorem C6_amended_typeerror_characterization_witness :
    HyperoptHyperOptimizer.convert_to_hp "hla" (PyVal.num 3) =
      Except.error (PyError.typeError
        "experiment_spec param_range value must be a list or dict") ∧
    HyperoptHyperOptimizer.convert_to_hp "hla"
        (PyVal.dict [("uniform", PyVal.str "relu")]) =
      Except.error (PyError.typeError "argument after ** must be a mapping") :=
  ⟨C6_amended_typeerror_characterization.1 "hla" (PyVal.num 3)
      (fun l h => PyVal.noConfusion h) (fun d h => PyVal.noConfusion h),
   C6_amended_typeerror_characterization.2.1 "hla" "uniform" (PyVal.str "relu")
      (fun d h => PyVal.noConfusion h)⟩

/-- C1: for every experiment spec (and every behaviour of the `rl.util`
grid helpers), `BruteHyperOptimizer.generate_param_space` dispatches
exactly one trial per generated configuration: the built `trial_array` has
the same length as the generated `param_space` (`num_of_trials`), and the
`e`-th trial is constructed from the `e`-th configuration with
`trial_num = e` and `num_of_trials` equal to the total configuration
count. -/
theorem C1_brute_generate_one_trial_per_config
    (param_line_search param_product : PyVal → PyVal)
    (generate_experiment_spec_grid : PyVal → PyVal → List PyVal)
    (attrs : PyDict) (rts : String) (ls es tv ev : PyVal)
    (hls : dictLookup attrs "line_search" = some ls)
    (hes : dictLookup attrs "experiment_spec" = some es)
    (htv : dictLookup attrs "times" = some tv)
    (hev : dictLookup attrs "experiment_id_override" = some ev) :
    ∃ (param_space : List PyVal) (trial_array : List TrialArgs),
      BruteHyperOptimizer.generate_param_space param_line_search param_product
          generate_experiment_spec_grid attrs rts =
        Except.ok (param_space, trial_array) ∧
      trial_array.length = param_space.length ∧
      ∀ (e : Nat) (he : e < trial_array.length),
        trial_array.get ⟨e, he⟩ =
          { experiment_spec := param_space.getD e PyVal.none
            times := tv
            trial_num := e
            num_of_trials := PyVal.num (param_space.length : ℚ)
            run_timestamp := rts
            experiment_id_override := some ev } := by
  refine ⟨_, _,
    brute_generate_eq param_line_search param_product generate_experiment_spec_grid
      attrs rts ls es tv ev hls hes htv hev, by simp, ?_⟩
  intro e he
  simp only [List.get_eq_getElem, List.getElem_map, List.getElem_range]

/-- Witness for C1 at a concrete spec: a two-configuration grid produces
exactly two trials, numbered from their configurations. -/
theorem C1_brute_generate_one_trial_per_config_witness :
    ∃ (param_space : List PyVal) (trial_array : List TrialArgs),
      BruteHyperOptimizer.generate_param_space (fun v => v) (fun v => v)
          (fun _ _ => [PyVal.num 1, PyVal.num 2])
          [("line_search", PyVal.bool false), ("experiment_spec", PyVal.dict []),
           ("times", PyVal.num 3), ("experiment_id_override", PyVal.str "o")] "t" =
        Except.ok (param_space, trial_array) ∧
      trial_array.length = param_space.length ∧
      ∀ (e : Nat) (he : e < trial_array.length),
        trial_array.get ⟨e, he⟩ =
          { experiment_spec := param_space.getD e PyVal.none
            times := PyVal.num 3
            trial_num := e
            num_of_trials := PyVal.num (param_space.length : ℚ)
            run_timestamp := "t"
            experiment_id_override := some (PyVal.str "o") } :=
  C1_brute_generate_one_trial_per_config (fun v => v) (fun v => v)
    (fun _ _ => [PyVal.num 1, PyVal.num 2])
    [("line_search", PyVal.bool false), ("experiment_spec", PyVal.dict []),
     ("times", PyVal.num 3), ("experiment_id_override", PyVal.str "o")] "t"
    (PyVal.bool false) (PyVal.dict []) (PyVal.num 3) (PyVal.str "o")
    rfl rfl rfl rfl

/-- C7: `BruteHyperOptimizer.run` executes the trials in a worker-process
pool and collects exactly one result (`trial.run()`'s value) per trial of
`trial_array`, and the order in which the workers complete (`completion`,
any permutation of the trial indices) is irrelevant to the returned
collection. -/
theorem C7_brute_run_unordered_pool
    (completion : List Nat) (Trial_run : TrialArgs → PyVal)
    (trial_array : List TrialArgs)
    (hperm : completion.Perm (List.range trial_array.length)) :
    BruteHyperOptimizer.run completion Trial_run trial_array
      = trial_array.map (BruteHyperOptimizer.mp_run_helper Trial_run) ∧
    (BruteHyperOptimizer.run completion Trial_run trial_array).length
      = trial_array.length ∧
    ∀ e : Nat,
      (BruteHyperOptimizer.run completion Trial_run trial_array)[e]?
        = (trial_array[e]?).map (BruteHyperOptimizer.mp_run_helper Trial_run) := by
  have hmap := pool_map_perm completion (BruteHyperOptimizer.mp_run_helper Trial_run)
    trial_array hperm
  refine ⟨hmap, by rw [BruteHyperOptimizer.run, hmap]; simp, ?_⟩
  intro e
  rw [BruteHyperOptimizer.run, hmap, List.getElem?_map]

/-- Witness for C7 at a concrete input: two trials whose workers complete
in reversed order still produce the results in trial order. -/
theorem C7_brute_run_unordered_pool_witness :
    BruteHyperOptimizer.run [1, 0] (fun t => PyVal.num (t.trial_num : ℚ))
        [{ experiment_spec := PyVal.none, times := PyVal.num 1, trial_num := 0
           num_of_trials := PyVal.num 2, run_timestamp := "t"
           experiment_id_override := Option.none },
         { experiment_spec := PyVal.none, times := PyVal.num 1, trial_num := 1
           num_of_trials := PyVal.num 2, run_timestamp := "t"
           experiment_id_override := Option.none }]
      = [{ experiment_spec := PyVal.none, times := PyVal.num 1, trial_num := 0
           num_of_trials := PyVal.num 2, run_timestamp := "t"
           experiment_id_override := Option.none },
         { experiment_spec := PyVal.none, times := PyVal.num 1, trial_num := 1
           num_of_trials := PyVal.num 2, run_timestamp := "t"
           experiment_id_override := Option.none }].map
          (BruteHyperOptimizer.mp_run_helper (fun t => PyVal.num (t.trial_num : ℚ))) :=
  (C7_brute_run_unordered_pool [1, 0] (fun t => PyVal.num (t.trial_num : ℚ))
    [{ experiment_spec := PyVal.none, times := PyVal.num 1, trial_num := 0
       num_of_trials := PyVal.num 2, run_timestamp := "t"
       experiment_id_override := Option.none },
     { experiment_spec := PyVal.none, times := PyVal.num 1, trial_num := 1
       num_of_trials := PyVal.num 2, run_timestamp := "t"
       experiment_id_override := Option.none }] (by decide)).1

/-- C9: trial numbering invariant and asymmetry.  `hyperopt_run_trial`
increments `trial_num` by exactly one before each trial, so starting from
the freshly constructed state (`trial_num = 0`) the successive calls
construct their `Trial`s with `trial_num = 1, 2, ...` (counting from 1),
while `BruteHyperOptimizer` numbers the trials of its `trial_array` with
`trial_num = 0, 1, ...` (counting from 0); in both cases `trial_num`
increases by exactly one between consecutive trials. -/
theorem C9_trial_numbering :
    (∀ (Trial_run : TrialArgs → PyVal) (h : Heap)
        (s : HyperoptHyperOptimizer.Vars) (param : PyVal),
        (HyperoptHyperOptimizer.hyperopt_run_trial Trial_run h s param).2.1.trial_num
          = s.trial_num + 1) ∧
    (∀ (h : Heap) (s : HyperoptHyperOptimizer.Vars) (params : List PyVal),
        s.trial_num = 0 →
        (HyperoptHyperOptimizer.run_trials h s params).2.2.map TrialArgs.trial_num
          = (List.range params.length).map (fun i => i + 1)) ∧
    (∀ (plf pp : PyVal → PyVal) (gesg : PyVal → PyVal → List PyVal)
        (attrs : PyDict) (rts : String) (ls es tv ev : PyVal),
        dictLookup attrs "line_search" = some ls →
        dictLookup attrs "experiment_spec" = some es →
        dictLookup attrs "times" = some tv →
        dictLookup attrs "experiment_id_override" = some ev →
        ∀ (param_space : List PyVal) (trial_array : List TrialArgs),
          BruteHyperOptimizer.generate_param_space plf pp gesg attrs rts =
            Except.ok (param_space, trial_array) →
          trial_array.map TrialArgs.trial_num = List.range param_space.length) := by
  refine ⟨?_, ?_, ?_⟩
  · intro f h s p
    rfl
  · intro h s params h0
    rw [run_trials_trial_nums params h s, h0]
    simp
  · intro plf pp gesg attrs rts ls es tv ev hls hes htv hev ps ta hok
    have heq := hok.symm.trans
      (brute_generate_eq plf pp gesg attrs rts ls es tv ev hls hes htv hev)
    injection heq with heq'
    injection heq' with heq1 heq2
    subst heq1
    subst heq2
    rw [List.map_map]
    refine (List.map_congr_left ?_).trans (List.map_id _)
    intro e he
    rfl

/-- Witness for C9 at concrete inputs: two hyperopt trials get numbers
1 and 2, while a one-configuration brute grid numbers its trial 0. -/
theorem C9_trial_numbering_witness :
    (HyperoptHyperOptimizer.run_trials ⟨[[("a", PyVal.num 1)]]⟩
        { common_experiment_spec := 0, default_param := PyVal.none
          param_range := PyVal.none, trial_num := 0, times := PyVal.num 1
          max_evals := PyVal.num 5, run_timestamp := "t" }
        [PyVal.num 7, PyVal.num 8]).2.2.map TrialArgs.trial_num
      = (List.range 2).map (fun i => i + 1) ∧
    [({ experiment_spec := PyVal.none, times := PyVal.num 3, trial_num := 0
        num_of_trials := PyVal.num 1, run_timestamp := "t"
        experiment_id_override := some (PyVal.str "o") } : TrialArgs)].map
      TrialArgs.trial_num = List.range 1 :=
  ⟨C9_trial_numbering.2.1 ⟨[[("a", PyVal.num 1)]]⟩
      { common_experiment_spec := 0, default_param := PyVal.none
        param_range := PyVal.none, trial_num := 0, times := PyVal.num 1
        max_evals := PyVal.num 5, run_timestamp := "t" }
      [PyVal.num 7, PyVal.num 8] rfl,
   C9_trial_numbering.2.2 (fun v => v) (fun v => v) (fun _ _ => [PyVal.none])
      [("line_search", PyVal.bool false), ("experiment_spec", PyVal.dict []),
       ("times", PyVal.num 3), ("experiment_id_override", PyVal.str "o")] "t"
      (PyVal.bool false) (PyVal.dict []) (PyVal.num 3) (PyVal.str "o")
      rfl rfl rfl rfl [PyVal.none] _ rfl⟩

/-- C10: `BruteHyperOptimizer` has an unstated required keyword argument
beyond its `REQUIRED_GLOBAL_VARS`: with the three required keys supplied
(and a non-empty configuration grid, so the trial loop body runs),
construction passes the required-keys assertion, but then raises
`AttributeError` inside `generate_param_space` when
`self.experiment_id_override` is read — so construction succeeds if and
only if an `'experiment_id_override'` kwarg is also supplied. -/
theorem C10_brute_requires_experiment_id_override
    (plf pp : PyVal → PyVal) (gesg : PyVal → PyVal → List PyVal)
    (kwargs : PyDict) (rts : String) (es tv ls : PyVal)
    (hes : dictLookup kwargs "experiment_spec" = some es)
    (htv : dictLookup kwargs "times" = some tv)
    (hls : dictLookup kwargs "line_search" = some ls)
    (hne : (gesg es (if pyTruthy ls then plf es else pp es)).length ≠ 0) :
    BruteHyperOptimizer.check_set_keys kwargs = Except.ok kwargs ∧
    (dictContains kwargs "experiment_id_override" = false →
      BruteHyperOptimizer.init plf pp gesg kwargs rts =
        Except.error (PyError.attributeError "experiment_id_override")) ∧
    (dictContains kwargs "experiment_id_override" = true →
      ∃ res, BruteHyperOptimizer.init plf pp gesg kwargs rts = Except.ok res) := by
  have hcheck : BruteHyperOptimizer.check_set_keys kwargs = Except.ok kwargs := by
    simp [BruteHyperOptimizer.check_set_keys, HyperOptimizer.check_set_keys,
      dictContains, hes, htv, hls]
  refine ⟨hcheck, ?_, ?_⟩
  · intro hno
    have hnoL := dictContains_false_lookup _ _ hno
    obtain ⟨m, hm⟩ : ∃ m,
        (gesg es (if pyTruthy ls then plf es else pp es)).length = m + 1 :=
      ⟨_, (Nat.succ_pred_eq_of_pos (Nat.pos_of_ne_zero hne)).symm⟩
    simp only [BruteHyperOptimizer.init, hcheck,
      BruteHyperOptimizer.generate_param_space, hls, hes]
    rw [hm, List.range_succ_eq_map]
    rw [trial_loop_err_eio kwargs _ _ rts tv htv hnoL]
  · intro hyes
    obtain ⟨ev, hev⟩ := (dictContains_iff_lookup _ _).mp hyes
    have hinit : BruteHyperOptimizer.init plf pp gesg kwargs rts =
        BruteHyperOptimizer.generate_param_space plf pp gesg kwargs rts := by
      simp only [BruteHyperOptimizer.init, hcheck]
    exact ⟨_, hinit.trans
      (brute_generate_eq plf pp gesg kwargs rts ls es tv ev hls hes htv hev)⟩

/-- Witness for C10 at concrete inputs: without `'experiment_id_override'`
the required-keys check passes but construction fails with
`AttributeError`; adding the kwarg makes construction succeed. -/
theorem C10_brute_requires_experiment_id_override_witness :
    BruteHyperOptimizer.check_set_keys
        [("experiment_spec", PyVal.dict []), ("times", PyVal.num 3),
         ("line_search", PyVal.bool true)] =
      Except.ok [("experiment_spec", PyVal.dict []), ("times", PyVal.num 3),
         ("line_search", PyVal.bool true)] ∧
    BruteHyperOptimizer.init (fun v => v) (fun v => v) (fun _ _ => [PyVal.none])
        [("experiment_spec", PyVal.dict []), ("times", PyVal.num 3),
         ("line_search", PyVal.bool true)] "t" =
      Except.error (PyError.attributeError "experiment_id_override") ∧
    ∃ res, BruteHyperOptimizer.init (fun v => v) (fun v => v)
        (fun _ _ => [PyVal.none])
        [("experiment_spec", PyVal.dict []), ("times", PyVal.num 3),
         ("line_search", PyVal.bool true),
         ("experiment_id_override", PyVal.str "o")] "t" = Except.ok res :=
  ⟨(C10_brute_requires_experiment_id_override (fun v => v) (fun v => v)
      (fun _ _ => [PyVal.none])
      [("experiment_spec", PyVal.dict []), ("times", PyVal.num 3),
       ("line_search", PyVal.bool true)] "t" (PyVal.dict []) (PyVal.num 3)
      (PyVal.bool true) rfl rfl rfl (by decide)).1,
   (C10_brute_requires_experiment_id_override (fun v => v) (fun v => v)
      (fun _ _ => [PyVal.none])
      [("experiment_spec", PyVal.dict []), ("times", PyVal.num 3),
       ("line_search", PyVal.bool true)] "t" (PyVal.dict []) (PyVal.num 3)
      (PyVal.bool true) rfl rfl rfl (by decide)).2.1 (by decide),
   (C10_brute_requires_experiment_id_override (fun v => v) (fun v => v)
      (fun _ _ => [PyVal.none])
      [("experiment_spec", PyVal.dict []), ("times", PyVal.num 3),
       ("line_search", PyVal.bool true),
       ("experiment_id_override", PyVal.str "o")] "t" (PyVal.dict [])
      (PyVal.num 3) (PyVal.bool true) rfl rfl rfl (by decide)).2.2 (by decide)⟩

/-- C4: `hyperopt_run_trial` computes a scalar loss from the returned
metrics dictionary: whenever the trial result has the expected shape, the
returned dict has `'status' = STATUS_OK`, `'trial_data'` equal to the
trial's `run()` result, and `'loss'` equal to `-1` times
`metrics['mean_rewards_per_epi_stats']['mean']` divided by
`sys_vars_array[0]['SOLVED_MEAN_REWARD']` — so that (for a positive
solved-mean-reward) maximizing mean rewards per episode corresponds to
minimizing the loss. -/
theorem C4_hyperopt_run_trial_loss
    (Trial_run : TrialArgs → PyVal) (h : Heap)
    (s : HyperoptHyperOptimizer.Vars) (param : PyVal)
    (summary metrics stats sva sv0 : PyVal) (m r : ℚ)
    (h1 : pySubscript (Trial_run (HyperoptHyperOptimizer.trial_call h s param).2.2)
        "summary" = Except.ok summary)
    (h2 : pySubscript summary "metrics" = Except.ok metrics)
    (h3 : pySubscript metrics "mean_rewards_per_epi_stats" = Except.ok stats)
    (h4 : pySubscript stats "mean" = Except.ok (PyVal.num m))
    (h5 : pySubscript (Trial_run (HyperoptHyperOptimizer.trial_call h s param).2.2)
        "sys_vars_array" = Except.ok sva)
    (h6 : pyIndex sva 0 = Except.ok sv0)
    (h7 : pySubscript sv0 "SOLVED_MEAN_REWARD" = Except.ok (PyVal.num r))
    (hr : r ≠ 0) :
    (HyperoptHyperOptimizer.hyperopt_run_trial Trial_run h s param).2.2 =
      Except.ok [("loss", PyVal.num ((-1 * m) / r)), ("status", STATUS_OK),
        ("trial_data", Trial_run (HyperoptHyperOptimizer.trial_call h s param).2.2)] ∧
    (∀ m1 m2 : ℚ, 0 < r → ((-1 * m1) / r < (-1 * m2) / r ↔ m2 < m1)) := by
  constructor
  · simp only [HyperoptHyperOptimizer.hyperopt_run_trial, bind, Except.bind,
      h1, h2, h3, h4, h5, h6, h7, pyAsNum, pyDiv, if_neg hr, pure, Except.pure]
  · intro m1 m2 hpos
    rw [div_lt_div_iff_of_pos_right hpos]
    constructor
    · intro hlt
      nlinarith
    · intro hlt
      nlinarith

/-- Witness for C4 at a concrete trial result of the expected shape
(mean rewards 10, solved mean reward 100): the loss is `-10/100`. -/
theorem C4_hyperopt_run_trial_loss_witness :
    (HyperoptHyperOptimizer.hyperopt_run_trial
        (fun _ => PyVal.dict [("summary", PyVal.dict [("metrics",
            PyVal.dict [("mean_rewards_per_epi_stats",
              PyVal.dict [("mean", PyVal.num 10)])])]),
          ("sys_vars_array", PyVal.list
            [PyVal.dict [("SOLVED_MEAN_REWARD", PyVal.num 100)]])])
        ⟨[[("a", PyVal.num 1)]]⟩
        { common_experiment_spec := 0, default_param := PyVal.none
          param_range := PyVal.none, trial_num := 0, times := PyVal.num 1
          max_evals := PyVal.num 5, run_timestamp := "t" }
        (PyVal.num 7)).2.2 =
      Except.ok [("loss", PyVal.num ((-1 * 10) / 100)), ("status", STATUS_OK),
        ("trial_data", PyVal.dict [("summary", PyVal.dict [("metrics",
            PyVal.dict [("mean_rewards_per_epi_stats",
              PyVal.dict [("mean", PyVal.num 10)])])]),
          ("sys_vars_array", PyVal.list
            [PyVal.dict [("SOLVED_MEAN_REWARD", PyVal.num 100)]])])] :=
  (C4_hyperopt_run_trial_loss
    (fun _ => PyVal.dict [("summary", PyVal.dict [("metrics",
        PyVal.dict [("mean_rewards_per_epi_stats",
          PyVal.dict [("mean", PyVal.num 10)])])]),
      ("sys_vars_array", PyVal.list
        [PyVal.dict [("SOLVED_MEAN_REWARD", PyVal.num 100)]])])
    ⟨[[("a", PyVal.num 1)]]⟩
    { common_experiment_spec := 0, default_param := PyVal.none
      param_range := PyVal.none, trial_num := 0, times := PyVal.num 1
      max_evals := PyVal.num 5, run_timestamp := "t" }
    (PyVal.num 7)
    (PyVal.dict [("metrics", PyVal.dict [("mean_rewards_per_epi_stats",
      PyVal.dict [("mean", PyVal.num 10)])])])
    (PyVal.dict [("mean_rewards_per_epi_stats",
      PyVal.dict [("mean", PyVal.num 10)])])
    (PyVal.dict [("mean", PyVal.num 10)])
    (PyVal.list [PyVal.dict [("SOLVED_MEAN_REWARD", PyVal.num 100)]])
    (PyVal.dict [("SOLVED_MEAN_REWARD", PyVal.num 100)])
    10 100 rfl rfl rfl rfl rfl rfl rfl (by norm_num)).1

/-- C5: when `HyperoptHyperOptimizer.generate_param_space` produces a param
space, every key of `param_range` is mapped to the hyperopt expression
`convert_to_hp(k, param_range[k])`, and every key not in `param_range`
keeps its value from the default `param` dict unchanged. -/
theorem C5_hyperopt_generate_param_space_spec
    (default_param param_range : PyDict) (out : SpaceDict)
    (hok : HyperoptHyperOptimizer.generate_param_space default_param param_range
      = Except.ok out) :
    (∀ k, dictContains param_range k = true →
        ∃ e, HyperoptHyperOptimizer.convert_to_hp k
              ((dictLookup param_range k).getD PyVal.none) = Except.ok e ∧
            dictLookup out k = some (SpaceVal.hp e)) ∧
    (∀ k, dictContains param_range k = false →
        dictLookup out k = (dictLookup default_param k).map SpaceVal.val) := by
  obtain ⟨hnot, hin⟩ := set_param_spaces_spec param_range (dictKeys param_range) _ out hok
  constructor
  · intro k hk
    exact hin k ((dictContains_iff_mem_keys _ _).mp hk)
  · intro k hk
    have hkL : k ∉ dictKeys param_range := fun hmem => by
      rw [(dictContains_iff_mem_keys _ _).mpr hmem] at hk
      exact Bool.noConfusion hk
    rw [hnot k hkL]
    exact dictLookup_map_val SpaceVal.val default_param k

/-- Witness for C5 at a concrete spec: a two-key default param whose key
`'b'` is searched becomes a choice expression, while key `'a'` keeps its
default value. -/
theorem C5_hyperopt_generate_param_space_spec_witness :
    (∃ e, HyperoptHyperOptimizer.convert_to_hp "b"
          ((dictLookup [("b", PyVal.list [PyVal.str "x"])] "b").getD PyVal.none) =
            Except.ok e ∧
        dictLookup [("a", SpaceVal.val (PyVal.num 1)),
            ("b", SpaceVal.hp (HpExpr.choice "b" [PyVal.str "x"]))] "b" =
          some (SpaceVal.hp e)) ∧
    dictLookup [("a", SpaceVal.val (PyVal.num 1)),
        ("b", SpaceVal.hp (HpExpr.choice "b" [PyVal.str "x"]))] "a" =
      (dictLookup [("a", PyVal.num 1), ("b", PyVal.num 2)] "a").map SpaceVal.val :=
  ⟨(C5_hyperopt_generate_param_space_spec
      [("a", PyVal.num 1), ("b", PyVal.num 2)]
      [("b", PyVal.list [PyVal.str "x"])]
      [("a", SpaceVal.val (PyVal.num 1)),
       ("b", SpaceVal.hp (HpExpr.choice "b" [PyVal.str "x"]))] rfl).1 "b" (by decide),
   (C5_hyperopt_generate_param_space_spec
      [("a", PyVal.num 1), ("b", PyVal.num 2)]
      [("b", PyVal.list [PyVal.str "x"])]
      [("a", SpaceVal.val (PyVal.num 1)),
       ("b", SpaceVal.hp (HpExpr.choice "b" [PyVal.str "x"]))] rfl).2 "a" (by decide)⟩

/-- C8: frame and aliasing behaviour of the hyperopt optimizer.
`HyperoptHyperOptimizer.check_set_keys` never mutates the caller's
`experiment_spec` dictionary — in every outcome the caller's heap cell is
untouched (so it still holds `'param'`, `'param_range'` and all its other
entries), because the spec is deep-copied into a fresh cell before the two
pops, which hit the copy.  In contrast, each trial call mutates the
optimizer's own stored `common_experiment_spec` in place, overwriting its
`'param'` entry, and the stored address never changes across the trials of
one optimizer — all trials share the very same dict object. -/
theorem C8_no_caller_mutation_shared_common_spec :
    (∀ (h : Heap) (a : Nat) (kr : PyDict) (rts : String), a < h.cells.length →
        ((HyperoptHyperOptimizer.check_set_keys h (some a) kr rts).1).get a = h.get a) ∧
    (∀ (h : Heap) (a : Nat) (kr : PyDict) (rts : String) (hout : Heap)
        (s : HyperoptHyperOptimizer.Vars), a < h.cells.length →
        HyperoptHyperOptimizer.check_set_keys h (some a) kr rts = (hout, Except.ok s) →
        s.common_experiment_spec ≠ a ∧
        hout.get s.common_experiment_spec =
          dictPop (dictPop (h.get a) "param") "param_range") ∧
    (∀ (h : Heap) (s : HyperoptHyperOptimizer.Vars) (param : PyVal),
        s.common_experiment_spec < h.cells.length →
        (HyperoptHyperOptimizer.trial_call h s param).2.1.common_experiment_spec =
          s.common_experiment_spec ∧
        ((HyperoptHyperOptimizer.trial_call h s param).1).get s.common_experiment_spec =
          dictSet (h.get s.common_experiment_spec) "param" param) ∧
    (∀ (h : Heap) (s : HyperoptHyperOptimizer.Vars) (params : List PyVal),
        (HyperoptHyperOptimizer.run_trials h s params).2.1.common_experiment_spec =
          s.common_experiment_spec) := by
  refine ⟨?_, ?_, ?_, ?_⟩
  · intro h a kr rts ha
    have hne : h.cells.length ≠ a := (Nat.ne_of_lt ha).symm
    by_cases h1 : dictContains (h.get a) "param" = true
    · by_cases h2 : dictContains (h.get a) "param_range" = true
      · by_cases h3 : (["experiment_spec", "times", "max_evals"].all
            (fun k => dictContains kr k)) = true
        · simp only [HyperoptHyperOptimizer.check_set_keys, Heap.alloc, h1, h2, h3,
            if_true]
          rw [Heap.get_set_ne _ _ _ _ hne, Heap.get_set_ne _ _ _ _ hne,
            Heap.get_mk_append_of_lt _ _ _ ha]
        · simp only [HyperoptHyperOptimizer.check_set_keys, Heap.alloc, h1, h2, h3,
            if_true, if_false, Bool.false_eq_true]
          rw [Heap.get_set_ne _ _ _ _ hne, Heap.get_set_ne _ _ _ _ hne,
            Heap.get_mk_append_of_lt _ _ _ ha]
      · simp [HyperoptHyperOptimizer.check_set_keys, h1, h2]
    · simp [HyperoptHyperOptimizer.check_set_keys, h1]
  · intro h a kr rts hout s ha heq
    have hne : h.cells.length ≠ a := (Nat.ne_of_lt ha).symm
    by_cases h1 : dictContains (h.get a) "param" = true
    · by_cases h2 : dictContains (h.get a) "param_range" = true
      · by_cases h3 : (["experiment_spec", "times", "max_evals"].all
            (fun k => dictContains kr k)) = true
        · simp only [HyperoptHyperOptimizer.check_set_keys, Heap.alloc, h1, h2, h3,
            if_true] at heq
          injection heq with hh hs
          injection hs with hs2
          subst hh
          subst hs2
          refine ⟨hne, (Heap.get_set_self _ _ _ ?_).trans
            (congrArg (fun d => dictPop d "param_range")
              ((Heap.get_set_self _ _ _ ?_).trans
                (congrArg (fun d => dictPop d "param")
                  (Heap.get_mk_append_self _ _))))⟩
          · simp [Heap.set]
          · simp [Heap.set]
        · simp only [HyperoptHyperOptimizer.check_set_keys, Heap.alloc, h1, h2, h3,
            if_true, if_false, Bool.false_eq_true] at heq
          injection heq with hh hs
          exact Except.noConfusion hs
      · simp [HyperoptHyperOptimizer.check_set_keys, h1, h2] at heq
    · simp [HyperoptHyperOptimizer.check_set_keys, h1] at heq
  · intro h s param hc
    refine ⟨rfl, ?_⟩
    exact Heap.get_set_self h s.common_experiment_spec _ hc
  · exact fun h s params => run_trials_common params h s

/-- Witness for C8 at concrete inputs: a caller's spec cell survives both a
failing and a succeeding `check_set_keys` untouched; a concrete trial call
overwrites `'param'` in place at the unchanged stored address; and a run of
two trials keeps the stored address. -/
theorem C8_no_caller_mutation_shared_common_spec_witness :
    ((HyperoptHyperOptimizer.check_set_keys
        ⟨[[("param", PyVal.num 1), ("param_range", PyVal.num 2),
           ("other", PyVal.num 3)]]⟩ (some 0) [("times", PyVal.num 1)] "t").1).get 0 =
      (⟨[[("param", PyVal.num 1), ("param_range", PyVal.num 2),
          ("other", PyVal.num 3)]]⟩ : Heap).get 0 ∧
    ((1 : Nat) ≠ 0 ∧
      (⟨[[("param", PyVal.num 1), ("param_range", PyVal.num 2),
          ("other", PyVal.num 3)], [("other", PyVal.num 3)]]⟩ : Heap).get 1 =
        dictPop (dictPop ((⟨[[("param", PyVal.num 1), ("param_range", PyVal.num 2),
          ("other", PyVal.num 3)]]⟩ : Heap).get 0) "param") "param_range") ∧
    ((HyperoptHyperOptimizer.trial_call ⟨[[("x", PyVal.num 1)]]⟩
        { common_experiment_spec := 0, default_param := PyVal.none
          param_range := PyVal.none, trial_num := 0, times := PyVal.num 1
          max_evals := PyVal.num 5, run_timestamp := "t" }
        (PyVal.num 7)).2.1.common_experiment_spec = 0 ∧
      ((HyperoptHyperOptimizer.trial_call ⟨[[("x", PyVal.num 1)]]⟩
        { common_experiment_spec := 0, default_param := PyVal.none
          param_range := PyVal.none, trial_num := 0, times := PyVal.num 1
          max_evals := PyVal.num 5, run_timestamp := "t" }
        (PyVal.num 7)).1).get 0 =
        dictSet ((⟨[[("x", PyVal.num 1)]]⟩ : Heap).get 0) "param" (PyVal.num 7)) ∧
    (HyperoptHyperOptimizer.run_trials ⟨[[("x", PyVal.num 1)]]⟩
        { common_experiment_spec := 0, default_param := PyVal.none
          param_range := PyVal.none, trial_num := 0, times := PyVal.num 1
          max_evals := PyVal.num 5, run_timestamp := "t" }
        [PyVal.num 7, PyVal.num 8]).2.1.common_experiment_spec = 0 :=
  ⟨C8_no_caller_mutation_shared_common_spec.1
      ⟨[[("param", PyVal.num 1), ("param_range", PyVal.num 2),
         ("other", PyVal.num 3)]]⟩ 0 [("times", PyVal.num 1)] "t" (by decide),
   C8_no_caller_mutation_shared_common_spec.2.1
      ⟨[[("param", PyVal.num 1), ("param_range", PyVal.num 2),
         ("other", PyVal.num 3)]]⟩ 0
      [("experiment_spec", PyVal.none), ("times", PyVal.num 1),
       ("max_evals", PyVal.num 5)] "t"
      ⟨[[("param", PyVal.num 1), ("param_range", PyVal.num 2),
         ("other", PyVal.num 3)], [("other", PyVal.num 3)]]⟩
      { common_experiment_spec := 1, default_param := PyVal.num 1
        param_range := PyVal.num 2, trial_num := 0, times := PyVal.num 1
        max_evals := PyVal.num 5, run_timestamp := "t" } (by decide) rfl,
   C8_no_caller_mutation_shared_common_spec.2.2.1
      ⟨[[("x", PyVal.num 1)]]⟩
      { common_experiment_spec := 0, default_param := PyVal.none
        param_range := PyVal.none, trial_num := 0, times := PyVal.num 1
        max_evals := PyVal.num 5, run_timestamp := "t" }
      (PyVal.num 7) (by decide),
   C8_no_caller_mutation_shared_common_spec.2.2.2
      ⟨[[("x", PyVal.num 1)]]⟩
      { common_experiment_spec := 0, default_param := PyVal.none
        param_range := PyVal.none, trial_num := 0, times := PyVal.num 1
        max_evals := PyVal.num 5, run_timestamp := "t" }
      [PyVal.num 7, PyVal.num 8]⟩

end OpenAILab
